import Mathlib

/-!
Verification of the socket lifecycle and readiness-tracking layer of
`src/bridge/unix-sockets.hpp` (SlimeVR OpenVR driver bridge).

The C++ header is shallowly embedded: each class becomes a structure, the
member functions become pure state-transforming functions, and the raw
syscall that an operation would issue is passed in as an explicit oracle
`(rawResult, rawErr)` pair (the int the syscall returns, plus errno).
Machine `int` values become `Int`; errno and bitmask values become `Nat`.
Exceptions become the `Except` error arm.
-/

namespace UnixSockets

/-- file descriptor, `using Descriptor = int` in the source -/
abbrev Descriptor := Int

/-- sentinel for an invalid / moved-from descriptor -/
def sInvalidSocket : Descriptor := -1

/-- Linux errno value shared by operation_would_block -/
def EWOULDBLOCK : Nat := 11

/-- Linux errno value shared by resource_unavailable_try_again -/
def EAGAIN : Nat := 11

/-- class SysReturn: std::errc (0 when not an error) or int value -/
structure SysReturn where
  mCode : Nat
  mValue : Int
deriving DecidableEq, Repr

/-- SysReturn(int value): success arm, mCode = errc() = 0 -/
def SysReturn.ofValue (v : Int) : SysReturn := ⟨0, v⟩

/-- SysReturn(std::errc code): error arm, mValue default-initialized to 0 -/
def SysReturn.ofCode (c : Nat) : SysReturn := ⟨c, 0⟩

/-- SysReturn::IsError: the stored code differs from sNotAnError -/
def SysReturn.IsError (r : SysReturn) : Bool := r.mCode ≠ 0

/-- SysReturn::GetCode -/
def SysReturn.GetCode (r : SysReturn) : Nat := r.mCode

/-- SysReturn::Unwrap: throws the code as a system_error if IsError, else
the value; the thrown exception is the `Except.error` arm -/
def SysReturn.Unwrap (r : SysReturn) : Except Nat Int :=
  if r.IsError then .error r.mCode else .ok r.mValue

/-- SysCall: run the syscall (outcome given as raw return plus errno) and
translate: non -1 return is the value, -1 decodes errno -/
def SysCall (rawResult : Int) (rawErr : Nat) : SysReturn :=
  if rawResult ≠ -1 then .ofValue rawResult else .ofCode rawErr

/-- SysCallBlocking: like SysCall but a -1 return with errno EWOULDBLOCK or
EAGAIN becomes nullopt (the third, would-block outcome) -/
def SysCallBlocking (rawResult : Int) (rawErr : Nat) : Option SysReturn :=
  if rawResult ≠ -1 then some (.ofValue rawResult)
  else if rawErr = EWOULDBLOCK ∨ rawErr = EAGAIN then none
  else some (.ofCode rawErr)

namespace event

/-- POLLIN bit -/
def POLLIN : Nat := 1
/-- POLLPRI bit -/
def POLLPRI : Nat := 2
/-- POLLOUT bit -/
def POLLOUT : Nat := 4
/-- POLLERR bit -/
def POLLERR : Nat := 8
/-- POLLHUP bit -/
def POLLHUP : Nat := 16
/-- POLLNVAL bit -/
def POLLNVAL : Nat := 32

/-- event::Readable interest mask -/
def Readable : Nat := POLLIN
/-- event::Priority interest mask -/
def Priority : Nat := POLLPRI
/-- event::Writable interest mask -/
def Writable : Nat := POLLOUT

/-- event::Result: bitmask snapshot of revents for one descriptor -/
structure Result where
  v : Nat
deriving DecidableEq, Repr

/-- event::Result::IsReadable -/
def Result.IsReadable (r : Result) : Bool := r.v &&& POLLIN ≠ 0
/-- event::Result::IsPriority -/
def Result.IsPriority (r : Result) : Bool := r.v &&& POLLPRI ≠ 0
/-- event::Result::IsWritable -/
def Result.IsWritable (r : Result) : Bool := r.v &&& POLLOUT ≠ 0
/-- event::Result::IsErrored -/
def Result.IsErrored (r : Result) : Bool := r.v &&& POLLERR ≠ 0
/-- event::Result::IsClosed -/
def Result.IsClosed (r : Result) : Bool := r.v &&& POLLHUP ≠ 0
/-- event::Result::IsInvalid -/
def Result.IsInvalid (r : Result) : Bool := r.v &&& POLLNVAL ≠ 0

/-- pollfd_t entry of the poll list -/
structure PollFd where
  fd : Descriptor
  events : Nat
  revents : Nat
deriving DecidableEq, Repr

/-- event::Poller: flat list of watched pollfd entries -/
structure Poller where
  mPollList : List PollFd
deriving DecidableEq, Repr

/-- Poller::AddConnector: push_back {descriptor, Readable | Writable, 0} -/
def Poller.AddConnector (p : Poller) (descriptor : Descriptor) : Poller :=
  { p with mPollList := p.mPollList ++ [⟨descriptor, Readable ||| Writable, 0⟩] }

/-- Poller::AddAcceptor: push_back {descriptor, Readable, 0} -/
def Poller.AddAcceptor (p : Poller) (descriptor : Descriptor) : Poller :=
  { p with mPollList := p.mPollList ++ [⟨descriptor, Readable, 0⟩] }

/-- Poller::GetSize -/
def Poller.GetSize (p : Poller) : Int := p.mPollList.length

/-- Poller::At: mPollList.at(idx).revents; std::vector::at is bounds
checked (a negative int converts to a huge size_type) and throws
std::out_of_range outside [0, size) -/
def Poller.At (p : Poller) (idx : Int) : Except String Result :=
  if h : 0 ≤ idx ∧ idx.toNat < p.mPollList.length then
    .ok ⟨(p.mPollList.get ⟨idx.toNat, h.2⟩).revents⟩
  else .error "out_of_range"

/-- Poller::Remove: erase(begin() + idx) -/
def Poller.Remove (p : Poller) (idx : Nat) : Poller :=
  { p with mPollList := p.mPollList.eraseIdx idx }

end event

/-- class Socket: owned descriptor plus cached readiness flags -/
structure Socket where
  mDescriptor : Descriptor
  mIsReadable : Bool := false
  mIsWritable : Bool := false
  mIsNonBlocking : Bool := false
deriving DecidableEq, Repr

/-- Socket::GetAndResetIsReadable: return cached flag (or true when not
non-blocking) and clear the cache -/
def Socket.GetAndResetIsReadable (s : Socket) : Bool × Socket :=
  ((s.mIsReadable || !s.mIsNonBlocking), { s with mIsReadable := false })

/-- Socket::GetAndResetIsWritable: return cached flag (or true when not
non-blocking) and clear the cache -/
def Socket.GetAndResetIsWritable (s : Socket) : Bool × Socket :=
  ((s.mIsWritable || !s.mIsNonBlocking), { s with mIsWritable := false })

/-- Socket::Update: absorb one poll event. Errored throws the pending
error from GetError (passed here as the `pendingError` oracle); invalid or
closed returns false; otherwise the readable/writable bits are ORed into
the cached flags and true is returned -/
def Socket.Update (s : Socket) (res : event.Result) (pendingError : Nat) :
    Except Nat (Bool × Socket) :=
  if res.IsErrored then .error pendingError
  else if res.IsInvalid || res.IsClosed then .ok (false, s)
  else
    .ok (true,
      { s with
        mIsReadable := s.mIsReadable || res.IsReadable
        mIsWritable := s.mIsWritable || res.IsWritable })

/-- LocalSocket::Connect: SysCall(::connect, ...).Unwrap() — a plain
SysCall, not SysCallBlocking, so Unwrap throws on every -1 outcome -/
def LocalSocket.Connect (rawResult : Int) (rawErr : Nat) : Except Nat Int :=
  (SysCall rawResult rawErr).Unwrap

/-- outcome of one gated TrySend/TryRecv/Accept attempt: the returned
value (error arm for a thrown system_error, `ok none` for the nullopt
no-progress outcome, `ok (some n)` for success), the socket state after
the call, and whether the inner syscall was issued at all -/
structure TryStep where
  result : Except Nat (Option Int)
  sock : Socket
  syscallMade : Bool
deriving Repr

/-- LocalConnectorSocket::TrySend: gate on GetAndResetIsWritable, then
SysCallBlocking(::send, ...); nullopt gate or nullopt syscall gives
nullopt, Unwrap throws hard errors -/
def LocalConnectorSocket.TrySend (s : Socket) (rawResult : Int) (rawErr : Nat) : TryStep :=
  let g := s.GetAndResetIsWritable
  if g.1 then
    match SysCallBlocking rawResult rawErr with
    | some sr =>
      match sr.Unwrap with
      | .ok n => ⟨.ok (some n), g.2, true⟩
      | .error c => ⟨.error c, g.2, true⟩
    | none => ⟨.ok none, g.2, true⟩
  else ⟨.ok none, g.2, false⟩

/-- LocalConnectorSocket::TryRecv: gate on GetAndResetIsReadable, then
SysCallBlocking(::recv, ...) -/
def LocalConnectorSocket.TryRecv (s : Socket) (rawResult : Int) (rawErr : Nat) : TryStep :=
  let g := s.GetAndResetIsReadable
  if g.1 then
    match SysCallBlocking rawResult rawErr with
    | some sr =>
      match sr.Unwrap with
      | .ok n => ⟨.ok (some n), g.2, true⟩
      | .error c => ⟨.error c, g.2, true⟩
    | none => ⟨.ok none, g.2, true⟩
  else ⟨.ok none, g.2, false⟩

/-- LocalAcceptorSocket::Accept: gate on GetAndResetIsReadable, then
SysCallBlocking(::accept, ...); the successful value is the freshly
produced connector descriptor -/
def LocalAcceptorSocket.Accept (s : Socket) (rawResult : Int) (rawErr : Nat) : TryStep :=
  let g := s.GetAndResetIsReadable
  if g.1 then
    match SysCallBlocking rawResult rawErr with
    | some sr =>
      match sr.Unwrap with
      | .ok d => ⟨.ok (some d), g.2, true⟩
      | .error c => ⟨.error c, g.2, true⟩
    | none => ⟨.ok none, g.2, true⟩
  else ⟨.ok none, g.2, false⟩

/-- sa_family_t value AF_UNIX -/
def sFamily : Nat := 1

/-- sizeof(sockaddr_un_t::sun_path) on Linux -/
def sunPathSize : Nat := 108

/-- sMaxSize = sizeof(sockaddr_un_t): 2-byte sun_family plus 108-byte
sun_path -/
def sMaxSize : Nat := 110

/-- sPathOffset = sMaxSize - sizeof(sun_path) -/
def sPathOffset : Nat := sMaxSize - sunPathSize

/-- typed exceptions thrown by LocalAddress construction -/
inductive AddrError where
  | invalidArgument (msg : String)
  | lengthError (msg : String)
deriving DecidableEq, Repr

/-- class LocalAddress: logical size, family tag and the sun_path byte
array (length sunPathSize, bytes as Nat) -/
structure LocalAddress where
  mSize : Nat
  sunFamily : Nat
  sunPath : List Nat
deriving DecidableEq, Repr

/-- std::strncpy into a zero-initialized buffer of length n: copies bytes
of src up to the first NUL, zero-fills the rest of the n bytes -/
def strncpyBytes (src : List Nat) (n : Nat) : List Nat :=
  let t := (src.take n).takeWhile (fun b => b ≠ 0)
  t ++ List.replicate (n - t.length) 0

/-- LocalAddress(std::string_view path): mSize = sPathOffset + path.size()
+ 1; throws invalid_argument on empty path, length_error when mSize
exceeds sMaxSize; otherwise strncpy the path into sun_path, NUL-terminate
at index path.size() (the rest of the record is zero-initialized) and tag
the family -/
def LocalAddress.ofPath (path : List Nat) : Except AddrError LocalAddress :=
  let mSize := sPathOffset + path.length + 1
  if path.length = 0 then .error (.invalidArgument "path empty")
  else if mSize > sMaxSize then .error (.lengthError "path too long")
  else
    .ok
      { mSize := mSize
        sunFamily := sFamily
        sunPath :=
          strncpyBytes path path.length ++ [0] ++
            List.replicate (sunPathSize - (path.length + 1)) 0 }

/-- LocalAddress::GetPath returns &sun_path[0] as a C string: the bytes up
to the first NUL -/
def LocalAddress.GetPath (a : LocalAddress) : List Nat :=
  a.sunPath.takeWhile (fun b => b ≠ 0)

/-- LocalAddress::GetSize -/
def LocalAddress.GetSize (a : LocalAddress) : Nat := a.mSize

/-- LocalAddress::IsValid: family tag matches AF_UNIX -/
def LocalAddress.IsValid (a : LocalAddress) : Bool := a.sunFamily = sFamily

/-!
Ownership trace model for the Socket special members.

A `Socket` object is, for lifetime purposes, just its `mDescriptor` slot.
Objects are numbered in creation order; a trace state holds, per object,
`none` once destroyed and `some d` while alive holding descriptor `d`
(`d = -1` is the moved-from empty sentinel `sInvalidSocket`). Every close
issued by `~Socket` is appended to a log. The three special members of
the source become trace operations:
  * move construction  `Socket(Socket&&)`   — new object takes the
    source's descriptor, source is set to `sInvalidSocket`;
  * move assignment    `operator=(Socket&&)` — std::swap of the two
    descriptors;
  * destruction        `~Socket()`           — close the descriptor iff
    it is not `sInvalidSocket`, then the object is dead.
Operations on dead objects do not occur in a well-formed C++ program and
are modelled as no-ops.
-/

/-- one special-member operation on the socket objects of a trace -/
inductive SockOp where
  | moveCtor (src : Nat)
  | moveAssign (dst : Nat) (src : Nat)
  | destroy (i : Nat)
deriving DecidableEq, Repr

/-- trace state: the object slots and the log of closed descriptors -/
structure SockState where
  objs : List (Option Int)
  log : List Int
deriving DecidableEq, Repr

/-- apply one special-member operation to the trace state -/
def SockState.step (s : SockState) (op : SockOp) : SockState :=
  match op with
  | .moveCtor src =>
    match s.objs[src]? with
    | some (some d) =>
      { objs := (s.objs.set src (some (-1))) ++ [some d], log := s.log }
    | _ => s
  | .moveAssign dst src =>
    match s.objs[dst]?, s.objs[src]? with
    | some (some a), some (some b) =>
      { objs := (s.objs.set dst (some b)).set src (some a), log := s.log }
    | _, _ => s
  | .destroy i =>
    match s.objs[i]? with
    | some (some d) =>
      { objs := s.objs.set i none
        log := if d ≠ -1 then s.log ++ [d] else s.log }
    | _ => s

/-- run a list of operations left to right -/
def SockState.run (s : SockState) (ops : List SockOp) : SockState :=
  ops.foldl SockState.step s

/-- trace state holding exactly one freshly opened descriptor -/
def initState (d : Int) : SockState := ⟨[some d], []⟩

/-- number of live objects currently holding descriptor d plus number of
closes of d already logged: the conserved quantity of the trace model -/
def charge (s : SockState) (d : Int) : Nat :=
  s.objs.countP (fun o => o = some d) + s.log.count d

/-! Helper lemmas -/

theorem countP_set_balance {α : Type} (p : α → Bool) :
    ∀ (l : List α) (i : Nat) (a x : α), l[i]? = some x →
      (l.set i a).countP p + (if p x then 1 else 0) =
        l.countP p + (if p a then 1 else 0) := by
  intro l
  induction l with
  | nil => intro i a x h; simp at h
  | cons b t ih =>
    intro i a x h
    cases i with
    | zero =>
      simp only [List.getElem?_cons_zero, Option.some.injEq] at h
      subst h
      simp [List.countP_cons]
      omega
    | succ i =>
      simp only [List.getElem?_cons_succ] at h
      have := ih i a x h
      simp [List.countP_cons]
      omega

/-- the conserved quantity is unchanged by every trace operation -/
theorem charge_step (d : Int) (hd : d ≠ -1) (s : SockState) (op : SockOp) :
    charge (s.step op) d = charge s d := by
  have hneg : (if (some (-1) : Option Int) = some d then 1 else 0) = 0 := by
    simp only [Option.some.injEq, ite_eq_right_iff]
    intro hc; omega
  cases op with
  | moveCtor src =>
    simp only [SockState.step]
    cases h : s.objs[src]? with
    | none => rfl
    | some o =>
      cases o with
      | none => rfl
      | some dd =>
        have hb := countP_set_balance (fun o : Option Int => o = some d)
          s.objs src (some (-1)) (some dd) h
        simp only [charge, List.countP_append, List.countP_cons,
          List.countP_nil, decide_eq_true_eq] at *
        omega
  | moveAssign dst src =>
    simp only [SockState.step]
    cases h1 : s.objs[dst]? with
    | none => rfl
    | some o1 =>
      cases o1 with
      | none => cases h2 : s.objs[src]? <;> rfl
      | some a =>
        cases h2 : s.objs[src]? with
        | none => rfl
        | some o2 =>
          cases o2 with
          | none => rfl
          | some b =>
            have hlen : dst < s.objs.length := by
              by_contra hc
              rw [List.getElem?_eq_none (by omega)] at h1
              exact Option.noConfusion h1
            have h3 : (s.objs.set dst (some b))[src]? = some (some b) := by
              by_cases hds : dst = src
              · subst hds; rw [List.getElem?_set_self hlen]
              · rw [List.getElem?_set_ne hds]; exact h2
            have hb1 := countP_set_balance (fun o : Option Int => o = some d)
              s.objs dst (some b) (some a) h1
            have hb2 := countP_set_balance (fun o : Option Int => o = some d)
              (s.objs.set dst (some b)) src (some a) (some b) h3
            simp only [charge] at *
            omega
  | destroy i =>
    simp only [SockState.step]
    cases h : s.objs[i]? with
    | none => rfl
    | some o =>
      cases o with
      | none => rfl
      | some dd =>
        have hb := countP_set_balance (fun o : Option Int => o = some d)
          s.objs i none (some dd) h
        have hb' : (s.objs.set i none).countP (fun o : Option Int => o = some d)
            + (if dd = d then 1 else 0)
            = s.objs.countP (fun o : Option Int => o = some d) := by
          simpa using hb
        have hlog : ((if dd ≠ -1 then s.log ++ [dd] else s.log).count d)
            = s.log.count d + (if dd = d then 1 else 0) := by
          by_cases hdd : dd = d
          · subst hdd; simp [hd, List.count_append]
          · by_cases hdd1 : dd = -1
            · simp only [hdd1, ne_eq, neg_neg, not_true_eq_false, if_neg,
                not_false_eq_true, reduceIte, if_pos]
              simp [hdd]
              omega
            · simp [hdd1, hdd, List.count_append, List.count_singleton,
                List.count_cons]
        simp only [charge]
        rw [hlog]
        omega

/-- the conserved quantity is unchanged by a whole trace -/
theorem charge_run (d : Int) (hd : d ≠ -1) (s : SockState) (ops : List SockOp) :
    charge (s.run ops) d = charge s d := by
  induction ops generalizing s with
  | nil => rfl
  | cons op rest ih =>
    simp only [SockState.run, List.foldl_cons] at *
    rw [ih (s.step op), charge_step d hd s op]

/-- the socket state after a gated TrySend always has the writable cache
cleared, whatever the inner syscall did -/
theorem trySend_sock (s : Socket) (r : Int) (e : Nat) :
    (LocalConnectorSocket.TrySend s r e).sock = { s with mIsWritable := false } := by
  unfold LocalConnectorSocket.TrySend
  dsimp only [Socket.GetAndResetIsWritable]
  split
  · split
    · split <;> rfl
    · rfl
  · rfl

/-- the socket state after a gated TryRecv always has the readable cache
cleared, whatever the inner syscall did -/
theorem tryRecv_sock (s : Socket) (r : Int) (e : Nat) :
    (LocalConnectorSocket.TryRecv s r e).sock = { s with mIsReadable := false } := by
  unfold LocalConnectorSocket.TryRecv
  dsimp only [Socket.GetAndResetIsReadable]
  split
  · split
    · split <;> rfl
    · rfl
  · rfl

/-- the socket state after a gated Accept always has the readable cache
cleared, whatever the inner syscall did -/
theorem accept_sock (s : Socket) (r : Int) (e : Nat) :
    (LocalAcceptorSocket.Accept s r e).sock = { s with mIsReadable := false } := by
  unfold LocalAcceptorSocket.Accept
  dsimp only [Socket.GetAndResetIsReadable]
  split
  · split
    · split <;> rfl
    · rfl
  · rfl

/-! Claim theorems -/

/-- C1 counterexample: a non-blocking socket whose cached writable flag
is set loses the flag on a TrySend whose inner send itself reports
would-block (EAGAIN): the attempt returns the blocked outcome (ok none,
not a consuming "not blocked" result), yet the cached writable flag is
false afterwards — the claim says it would still be set for the next
attempt. -/
theorem C1_counterexample :
    (LocalConnectorSocket.TrySend
        ⟨3, false, true, true⟩ (-1) EAGAIN).result = .ok none
    ∧ (LocalConnectorSocket.TrySend
        ⟨3, false, true, true⟩ (-1) EAGAIN).sock.mIsWritable = false :=
  ⟨rfl, rfl⟩

/-- C1 amended: a cached readiness flag persists across every operation
that does not consult it (TrySend leaves the readable cache untouched;
TryRecv and Accept leave the writable cache untouched), but the first
TrySend (resp. TryRecv/Accept) attempt that consults its flag clears it
unconditionally — even when the inner syscall reports would-block and the
attempt returns the blocked outcome. -/
theorem C1_amended_flag_consumed_by_gate (s : Socket) (r : Int) (e : Nat) :
    (LocalConnectorSocket.TrySend s r e).sock.mIsReadable = s.mIsReadable
    ∧ (LocalConnectorSocket.TryRecv s r e).sock.mIsWritable = s.mIsWritable
    ∧ (LocalAcceptorSocket.Accept s r e).sock.mIsWritable = s.mIsWritable
    ∧ (LocalConnectorSocket.TrySend s r e).sock.mIsWritable = false
    ∧ (LocalConnectorSocket.TryRecv s r e).sock.mIsReadable = false
    ∧ (LocalAcceptorSocket.Accept s r e).sock.mIsReadable = false := by
  refine ⟨?_, ?_, ?_, ?_, ?_, ?_⟩ <;>
    simp [trySend_sock, tryRecv_sock, accept_sock]

/-- C3 counterexample: the outbound connector construction runs
Connect() through the plain SysCall wrapper and Unwrap, so a connect that
reports the would-block / try-again code EAGAIN raises a typed failure
carrying that code instead of producing a non-error no-progress
outcome. -/
theorem C3_counterexample :
    LocalSocket.Connect (-1) EAGAIN = .error EAGAIN := rfl

/-- C3 amended: the connect-style operation of the outbound connector
constructor succeeds exactly on a non -1 raw return and raises a typed
failure carrying the decoded errno for every -1 return — including
would-block / try-again; the distinct no-progress outcome exists only for
the SysCallBlocking-based TrySend/TryRecv/Accept paths. -/
theorem C3_connect_raises_on_all_errors (r : Int) (e : Nat) :
    (r ≠ -1 → LocalSocket.Connect r e = .ok r)
    ∧ (r = -1 → e ≠ 0 → LocalSocket.Connect r e = .error e) := by
  constructor
  · intro h
    simp [LocalSocket.Connect, SysCall, SysReturn.Unwrap, SysReturn.IsError,
      SysReturn.ofValue, h]
  · intro h he
    simp [LocalSocket.Connect, SysCall, SysReturn.Unwrap, SysReturn.IsError,
      SysReturn.ofCode, h, he]

/-- C3 amended witness at concrete inputs -/
theorem C3_witness :
    LocalSocket.Connect 3 0 = .ok 3
    ∧ LocalSocket.Connect (-1) 111 = .error 111 :=
  ⟨(C3_connect_raises_on_all_errors 3 0).1 (by decide),
   (C3_connect_raises_on_all_errors (-1) 111).2 rfl (by decide)⟩

/-- C4: on a non-blocking descriptor whose corresponding cached readiness
flag is false, TrySend / TryRecv / Accept issue no underlying syscall and
return the no-progress outcome (the empty optional). -/
theorem C4_gate_closed_no_syscall (s : Socket) (r : Int) (e : Nat)
    (hnb : s.mIsNonBlocking = true) :
    (s.mIsWritable = false →
      LocalConnectorSocket.TrySend s r e =
        ⟨.ok none, { s with mIsWritable := false }, false⟩)
    ∧ (s.mIsReadable = false →
      LocalConnectorSocket.TryRecv s r e =
        ⟨.ok none, { s with mIsReadable := false }, false⟩
      ∧ LocalAcceptorSocket.Accept s r e =
        ⟨.ok none, { s with mIsReadable := false }, false⟩) := by
  constructor
  · intro hw
    simp [LocalConnectorSocket.TrySend, Socket.GetAndResetIsWritable, hnb, hw]
  · intro hr
    constructor
    · simp [LocalConnectorSocket.TryRecv, Socket.GetAndResetIsReadable, hnb, hr]
    · simp [LocalAcceptorSocket.Accept, Socket.GetAndResetIsReadable, hnb, hr]

/-- C4 witness at a concrete non-blocking socket with both caches clear -/
theorem C4_witness :
    LocalConnectorSocket.TrySend ⟨3, false, false, true⟩ 9 0 =
      ⟨.ok none, ⟨3, false, false, true⟩, false⟩
    ∧ LocalConnectorSocket.TryRecv ⟨3, false, false, true⟩ 9 0 =
      ⟨.ok none, ⟨3, false, false, true⟩, false⟩
    ∧ LocalAcceptorSocket.Accept ⟨3, false, false, true⟩ 9 0 =
      ⟨.ok none, ⟨3, false, false, true⟩, false⟩ :=
  ⟨(C4_gate_closed_no_syscall ⟨3, false, false, true⟩ 9 0 rfl).1 rfl,
   ((C4_gate_closed_no_syscall ⟨3, false, false, true⟩ 9 0 rfl).2 rfl).1,
   ((C4_gate_closed_no_syscall ⟨3, false, false, true⟩ 9 0 rfl).2 rfl).2⟩

/-- C5: SysCallBlocking sends a non -1 raw return to the success arm
carrying that value, a -1 return with would-block / try-again errno to
the third, empty outcome, and a -1 return with any other errno to the
error arm carrying the decoded code. -/
theorem C5_sysCallBlocking_trichotomy (r : Int) (e : Nat) :
    (r ≠ -1 → SysCallBlocking r e = some (SysReturn.ofValue r)
      ∧ (SysReturn.ofValue r).IsError = false
      ∧ (SysReturn.ofValue r).Unwrap = .ok r)
    ∧ (r = -1 → (e = EWOULDBLOCK ∨ e = EAGAIN) → SysCallBlocking r e = none)
    ∧ (r = -1 → e ≠ EWOULDBLOCK → e ≠ EAGAIN →
        SysCallBlocking r e = some (SysReturn.ofCode e)
        ∧ (SysReturn.ofCode e).GetCode = e
        ∧ (e ≠ 0 → (SysReturn.ofCode e).IsError = true)) := by
  refine ⟨?_, ?_, ?_⟩
  · intro h
    refine ⟨by simp [SysCallBlocking, h], rfl, rfl⟩
  · intro h hw
    simp [SysCallBlocking, h, hw]
  · intro h h1 h2
    refine ⟨by simp [SysCallBlocking, h, h1, h2], rfl, ?_⟩
    intro he
    simp [SysReturn.IsError, SysReturn.ofCode, he]

/-- C5 witness covering the three outcomes at concrete inputs -/
theorem C5_witness :
    SysCallBlocking 7 0 = some (SysReturn.ofValue 7)
    ∧ SysCallBlocking (-1) 11 = none
    ∧ (SysCallBlocking (-1) 13 = some (SysReturn.ofCode 13)
      ∧ (SysReturn.ofCode 13).IsError = true) :=
  ⟨((C5_sysCallBlocking_trichotomy 7 0).1 (by decide)).1,
   (C5_sysCallBlocking_trichotomy (-1) 11).2.1 rfl (Or.inl rfl),
   ⟨((C5_sysCallBlocking_trichotomy (-1) 13).2.2 rfl (by decide) (by decide)).1,
    ((C5_sysCallBlocking_trichotomy (-1) 13).2.2 rfl (by decide) (by decide)).2.2
      (by decide)⟩⟩

/-- C6: Update raises the pending error (queried via GetError) whenever
the errored bit is set, regardless of other bits; otherwise an invalid or
peer-closed bit makes it return false with the socket unchanged;
otherwise it ORs the readable/writable bits into the cached flags and
returns true. -/
theorem C6_update_trichotomy (s : Socket) (res : event.Result) (pe : Nat) :
    (res.IsErrored = true → s.Update res pe = .error pe)
    ∧ (res.IsErrored = false → (res.IsInvalid || res.IsClosed) = true →
        s.Update res pe = .ok (false, s))
    ∧ (res.IsErrored = false → (res.IsInvalid || res.IsClosed) = false →
        s.Update res pe = .ok (true,
          { s with
            mIsReadable := s.mIsReadable || res.IsReadable
            mIsWritable := s.mIsWritable || res.IsWritable })) := by
  refine ⟨?_, ?_, ?_⟩
  · intro h; simp [Socket.Update, h]
  · intro h1 h2; simp [Socket.Update, h1, h2]
  · intro h1 h2; simp [Socket.Update, h1, h2]

/-- C6 witness: an errored event (POLLERR), a peer-closed event (POLLHUP)
and a readable-and-writable event (POLLIN | POLLOUT) absorbed by a
concrete non-blocking socket -/
theorem C6_witness :
    Socket.Update ⟨3, false, false, true⟩ ⟨8⟩ 99 = .error 99
    ∧ Socket.Update ⟨3, false, false, true⟩ ⟨16⟩ 99 =
        .ok (false, ⟨3, false, false, true⟩)
    ∧ Socket.Update ⟨3, false, false, true⟩ ⟨5⟩ 99 =
        .ok (true, ⟨3, true, true, true⟩) :=
  ⟨(C6_update_trichotomy ⟨3, false, false, true⟩ ⟨8⟩ 99).1 (by decide),
   (C6_update_trichotomy ⟨3, false, false, true⟩ ⟨16⟩ 99).2.1 (by decide)
     (by decide),
   (C6_update_trichotomy ⟨3, false, false, true⟩ ⟨5⟩ 99).2.2 (by decide)
     (by decide)⟩

/-- C7: GetAndResetIsReadable / GetAndResetIsWritable clear the cached
flag; in non-blocking mode they return the cached flag, otherwise true
regardless of it; on a non-blocking socket with the readable cache set,
two consecutive calls return true then false. -/
theorem C7_get_and_reset (s : Socket) :
    s.GetAndResetIsReadable.2 = { s with mIsReadable := false }
    ∧ s.GetAndResetIsWritable.2 = { s with mIsWritable := false }
    ∧ (s.mIsNonBlocking = true →
        s.GetAndResetIsReadable.1 = s.mIsReadable
        ∧ s.GetAndResetIsWritable.1 = s.mIsWritable)
    ∧ (s.mIsNonBlocking = false →
        s.GetAndResetIsReadable.1 = true
        ∧ s.GetAndResetIsWritable.1 = true)
    ∧ (s.mIsNonBlocking = true → s.mIsReadable = true →
        s.GetAndResetIsReadable.1 = true
        ∧ s.GetAndResetIsReadable.2.GetAndResetIsReadable.1 = false) := by
  refine ⟨rfl, rfl, ?_, ?_, ?_⟩
  · intro h
    simp [Socket.GetAndResetIsReadable, Socket.GetAndResetIsWritable, h]
  · intro h
    simp [Socket.GetAndResetIsReadable, Socket.GetAndResetIsWritable, h]
  · intro h hr
    simp [Socket.GetAndResetIsReadable, h, hr]

/-- C7 witness: gate-then-clear on a concrete non-blocking socket with
the readable cache set, plus the blocking-mode degradation on a concrete
blocking socket -/
theorem C7_witness :
    (Socket.GetAndResetIsReadable ⟨3, true, false, true⟩).1 = true
    ∧ ((Socket.GetAndResetIsReadable
        ⟨3, true, false, true⟩).2.GetAndResetIsReadable).1 = false
    ∧ (Socket.GetAndResetIsReadable ⟨4, false, false, false⟩).1 = true :=
  ⟨((C7_get_and_reset ⟨3, true, false, true⟩).2.2.2.2 rfl rfl).1,
   ((C7_get_and_reset ⟨3, true, false, true⟩).2.2.2.2 rfl rfl).2,
   ((C7_get_and_reset ⟨4, false, false, false⟩).2.2.2.1 rfl).1⟩

/-- C2 counterexample: move-assignment is a descriptor swap, so it does
not leave the source empty. Open descriptor 5, move-construct a second
object from the first (the first becomes the empty shell), then
move-assign the live holder from the shell: the swap hands the live
descriptor 5 to the source of the move, which the claim says would be
left empty (the -1 sentinel). -/
theorem C2_counterexample :
    (((initState 5).run [SockOp.moveCtor 0,
        SockOp.moveAssign 1 0]).objs[0]?) = some (some 5)
    ∧ (((initState 5).run [SockOp.moveCtor 0,
        SockOp.moveAssign 1 0]).objs[0]?) ≠ some (some (-1)) :=
  ⟨rfl, by decide⟩

/-- C2 amended: over every trace of move-constructions, move-assignments
and destructions starting from one object owning descriptor d, the close
log mentions d at most once; move construction leaves the source holding
the invalid sentinel and the new object holding the transferred
descriptor; move assignment swaps the two descriptors, so the source ends
up holding the destination's previous descriptor (empty only when the
destination was empty); destroying a moved-from (empty) object logs no
close; destroying a live holder of a real descriptor logs exactly one
close of it. -/
theorem C2_ownership_trace (d : Int) (hd : d ≠ -1) (ops : List SockOp)
    (i j : Nat) (x y : Int) :
    ((initState d).run ops).log.count d ≤ 1
    ∧ (((initState d).run ops).objs[i]? = some (some x) →
        (((initState d).run ops).step (.moveCtor i)).objs[i]? = some (some (-1))
        ∧ (((initState d).run ops).step
            (.moveCtor i)).objs[((initState d).run ops).objs.length]? =
          some (some x))
    ∧ (i ≠ j → ((initState d).run ops).objs[i]? = some (some x) →
        ((initState d).run ops).objs[j]? = some (some y) →
        (((initState d).run ops).step (.moveAssign i j)).objs[i]? =
          some (some y)
        ∧ (((initState d).run ops).step (.moveAssign i j)).objs[j]? =
          some (some x))
    ∧ (((initState d).run ops).objs[i]? = some (some (-1)) →
        (((initState d).run ops).step (.destroy i)).log =
          ((initState d).run ops).log)
    ∧ (x ≠ -1 → ((initState d).run ops).objs[i]? = some (some x) →
        (((initState d).run ops).step (.destroy i)).log =
          ((initState d).run ops).log ++ [x]) := by
  refine ⟨?_, ?_, ?_, ?_, ?_⟩
  · have hc := charge_run d hd (initState d) ops
    have hinit : charge (initState d) d = 1 := by
      simp [charge, initState]
    rw [hinit] at hc
    simp only [charge] at hc
    omega
  · intro h
    have hlen : i < ((initState d).run ops).objs.length := by
      by_contra hc
      rw [List.getElem?_eq_none (by omega)] at h
      exact Option.noConfusion h
    constructor
    · simp only [SockState.step, h]
      rw [List.getElem?_append_left (by simpa using hlen)]
      rw [List.getElem?_set_self (by simpa using hlen)]
    · simp only [SockState.step, h]
      rw [show ((initState d).run ops).objs.length =
          (((initState d).run ops).objs.set i (some (-1))).length by simp]
      exact List.getElem?_concat_length _ _
  · intro hij h1 h2
    have hleni : i < ((initState d).run ops).objs.length := by
      by_contra hc
      rw [List.getElem?_eq_none (by omega)] at h1
      exact Option.noConfusion h1
    have hlenj : j < ((initState d).run ops).objs.length := by
      by_contra hc
      rw [List.getElem?_eq_none (by omega)] at h2
      exact Option.noConfusion h2
    constructor
    · simp only [SockState.step, h1, h2]
      rw [List.getElem?_set_ne (Ne.symm hij)]
      exact List.getElem?_set_self hleni
    · simp only [SockState.step, h1, h2]
      exact List.getElem?_set_self (by simpa using hlenj)
  · intro h
    simp [SockState.step, h]
  · intro hx h
    simp [SockState.step, h, hx]

/-- C2 witness: open descriptor 5, move-construct a second holder, then
swap it back by move-assignment, destroy the live holder, and destroy a
moved-from shell -/
theorem C2_witness :
    ((initState 5).run [SockOp.moveCtor 0]).log.count 5 ≤ 1
    ∧ ((((initState 5).run [SockOp.moveCtor 0]).step
          (.moveAssign 0 1)).objs[0]? = some (some 5)
      ∧ (((initState 5).run [SockOp.moveCtor 0]).step
          (.moveAssign 0 1)).objs[1]? = some (some (-1)))
    ∧ (((initState 5).run [SockOp.moveCtor 0]).step (.destroy 1)).log =
        ((initState 5).run [SockOp.moveCtor 0]).log ++ [5]
    ∧ (((initState 5).run [SockOp.moveCtor 0]).step (.destroy 0)).log =
        ((initState 5).run [SockOp.moveCtor 0]).log :=
  ⟨(C2_ownership_trace 5 (by decide) [SockOp.moveCtor 0] 1 0 5 0).1,
   (C2_ownership_trace 5 (by decide) [SockOp.moveCtor 0] 0 1 (-1) 5).2.2.1
     (by decide) (by decide) (by decide),
   (C2_ownership_trace 5 (by decide) [SockOp.moveCtor 0] 1 0 5 0).2.2.2.2
     (by decide) (by decide),
   (C2_ownership_trace 5 (by decide) [SockOp.moveCtor 0] 0 1 (-1) 5).2.2.2.1
     (by decide)⟩

/-- C8: a non-empty NUL-free path of at most 107 bytes (the record size
110 minus the 2-byte header minus one terminator byte) round-trips
through LocalAddress construction and the GetPath accessor; the empty
path fails with invalid_argument; a path longer than 107 bytes fails
with length_error. -/
theorem C8_address_roundtrip (path : List Nat) :
    (path ≠ [] → path.length ≤ 107 → (∀ b ∈ path, b ≠ 0) →
      ∃ a, LocalAddress.ofPath path = .ok a ∧ a.GetPath = path)
    ∧ LocalAddress.ofPath [] = .error (.invalidArgument "path empty")
    ∧ (path.length > 107 →
        LocalAddress.ofPath path = .error (.lengthError "path too long")) := by
  refine ⟨?_, rfl, ?_⟩
  · intro hne hlen hnz
    have h0 : ¬ path.length = 0 := by
      have := List.length_pos.mpr hne
      omega
    have h1 : ¬ sPathOffset + path.length + 1 > sMaxSize := by
      simp only [sPathOffset, sMaxSize, sunPathSize]
      omega
    have hcopy : strncpyBytes path path.length = path := by
      unfold strncpyBytes
      rw [List.take_length]
      rw [List.takeWhile_eq_self_iff.mpr (by simpa using hnz)]
      simp
    refine ⟨⟨sPathOffset + path.length + 1, sFamily,
      path ++ [0] ++ List.replicate (sunPathSize - (path.length + 1)) 0⟩,
      ?_, ?_⟩
    · simp only [LocalAddress.ofPath]
      rw [if_neg h0, if_neg h1, hcopy]
    · simp only [LocalAddress.GetPath]
      rw [List.append_assoc]
      rw [List.takeWhile_append_of_pos (by simpa using hnz)]
      simp [List.takeWhile_cons]
  · intro h
    have h0 : ¬ path.length = 0 := by omega
    have h1 : sPathOffset + path.length + 1 > sMaxSize := by
      simp only [sPathOffset, sMaxSize, sunPathSize]
      omega
    simp [LocalAddress.ofPath, h0, h1]

/-- C8 witness: a concrete four-byte path round-trips, and a 108-byte
path overflows the record -/
theorem C8_witness :
    (∃ a, LocalAddress.ofPath [47, 116, 109, 112] = .ok a
      ∧ a.GetPath = [47, 116, 109, 112])
    ∧ LocalAddress.ofPath (List.replicate 108 1) =
        .error (.lengthError "path too long") :=
  ⟨(C8_address_roundtrip [47, 116, 109, 112]).1 (by decide) (by decide)
     (by decide),
   (C8_address_roundtrip (List.replicate 108 1)).2.2 (by simp)⟩

/-- C9: AddAcceptor appends an entry requesting readable only,
AddConnector appends one requesting readable and writable, GetSize is the
entry count, and Remove drops exactly the indexed entry: entries below
the removed index are unchanged and entries above shift down by one. -/
theorem C9_poller_registration (p : event.Poller) (d : Descriptor)
    (i j : Nat) :
    (p.AddAcceptor d).mPollList = p.mPollList ++ [⟨d, event.Readable, 0⟩]
    ∧ (event.Readable &&& event.POLLIN ≠ 0
       ∧ event.Readable &&& event.POLLOUT = 0
       ∧ event.Readable &&& event.POLLPRI = 0)
    ∧ (p.AddConnector d).mPollList =
        p.mPollList ++ [⟨d, event.Readable ||| event.Writable, 0⟩]
    ∧ ((event.Readable ||| event.Writable) &&& event.POLLIN ≠ 0
       ∧ (event.Readable ||| event.Writable) &&& event.POLLOUT ≠ 0)
    ∧ p.GetSize = p.mPollList.length
    ∧ (j < i → (p.Remove i).mPollList[j]? = p.mPollList[j]?)
    ∧ (i ≤ j → (p.Remove i).mPollList[j]? = p.mPollList[j + 1]?)
    ∧ (i < p.mPollList.length → (p.Remove i).GetSize = p.GetSize - 1) := by
  refine ⟨rfl, by decide, rfl, by decide, rfl, ?_, ?_, ?_⟩
  · intro h
    exact List.getElem?_eraseIdx_of_lt p.mPollList i j h
  · intro h
    exact List.getElem?_eraseIdx_of_ge p.mPollList i j h
  · intro h
    have := List.length_eraseIdx (l := p.mPollList) (i := i)
    simp only [event.Poller.Remove, event.Poller.GetSize]
    simp only [h, if_pos] at this
    rw [this]
    omega

/-- C9 witness at a concrete two-entry poll list -/
theorem C9_witness :
    (event.Poller.Remove ⟨[⟨1, 1, 0⟩, ⟨2, 5, 0⟩]⟩ 1).mPollList[0]? =
      (⟨[⟨1, 1, 0⟩, ⟨2, 5, 0⟩]⟩ : event.Poller).mPollList[0]?
    ∧ (event.Poller.Remove ⟨[⟨1, 1, 0⟩, ⟨2, 5, 0⟩]⟩ 0).mPollList[0]? =
      (⟨[⟨1, 1, 0⟩, ⟨2, 5, 0⟩]⟩ : event.Poller).mPollList[1]?
    ∧ (event.Poller.Remove ⟨[⟨1, 1, 0⟩, ⟨2, 5, 0⟩]⟩ 0).GetSize =
      (⟨[⟨1, 1, 0⟩, ⟨2, 5, 0⟩]⟩ : event.Poller).GetSize - 1 :=
  ⟨(C9_poller_registration ⟨[⟨1, 1, 0⟩, ⟨2, 5, 0⟩]⟩ 7 1 0).2.2.2.2.2.1
     (by decide),
   (C9_poller_registration ⟨[⟨1, 1, 0⟩, ⟨2, 5, 0⟩]⟩ 7 0 0).2.2.2.2.2.2.1
     (by decide),
   (C9_poller_registration ⟨[⟨1, 1, 0⟩, ⟨2, 5, 0⟩]⟩ 7 0 0).2.2.2.2.2.2.2
     (by decide)⟩

/-- C10: At with an index outside [0, GetSize()) — negative included —
takes the bounds-checked failure path and reports out_of_range instead of
reading past the entry list (the accessor is const: it yields only the
event snapshot and never edits the watched-entry list). -/
theorem C10_at_bounds_checked (p : event.Poller) (idx : Int)
    (h : ¬ (0 ≤ idx ∧ idx < p.GetSize)) :
    p.At idx = .error "out_of_range" := by
  unfold event.Poller.At
  rw [dif_neg]
  intro hc
  apply h
  refine ⟨hc.1, ?_⟩
  have h2 := hc.2
  simp only [event.Poller.GetSize]
  omega

/-- C10 witness: a too-large and a negative index on a concrete one-entry
poll list -/
theorem C10_witness :
    event.Poller.At ⟨[⟨1, 1, 0⟩]⟩ 5 = .error "out_of_range"
    ∧ event.Poller.At ⟨[⟨1, 1, 0⟩]⟩ (-1) = .error "out_of_range" :=
  ⟨C10_at_bounds_checked ⟨[⟨1, 1, 0⟩]⟩ 5 (by decide),
   C10_at_bounds_checked ⟨[⟨1, 1, 0⟩]⟩ (-1) (by decide)⟩

end UnixSockets
